import Mathlib

/-!
Verification of the lspower LSP server framework core.

The development shallowly embeds two source files:

* `lspower-macros/src/lib.rs` — the `gen_server_router` procedural macro.
  The macro generates, for a user trait, the `ServerMethod` sum type (one
  variant per annotated handler plus the fixed `CancelRequest` and `Exit`
  variants), the `ServerMethod::id()` accessor, the `Params<T>` two-state
  wrapper with its total `Deserialize` impl, and the `handle_request`
  dispatcher.  The generated code is embedded here generically: the four
  variant shapes produced by the macro ((result?, params?) each true/false)
  become the variants `requestParams`, `requestUnit`, `notifyParams` and
  `notifyUnit` carrying the method name, and the two specially-routed
  methods `initialize` and `shutdown` become the variants `init` and
  `shutdown`.  Dispatch is modelled as a pure function from the current
  lifecycle state and the decoded request to an `Outcome` recording the
  state after the synchronous part of `handle_request` (everything before
  the returned future is first awaited), the state after the returned
  future completes, the optional outgoing message, the ids passed to
  `pending.cancel`, whether `pending.cancel_all` was called, the ids
  registered via `pending.execute`, and the log lines emitted.

* `src/transport.rs` — `Server::serve`.  The reader/writer pair is
  modelled as a pure function over the list of decoded frames (and, at the
  byte level, over the raw character stream); the `buffered(4)` response
  queue preserves queue order, so outputs appear in arrival order.

Types that live in repository files not included under `src/`
(`jsonrpc.rs`, `codec.rs`, `server.rs`, `service.rs`) are modelled from
the specification; each such definition carries a doc comment starting
with `Modelled from the spec:`.  Machine integers (`i64` ids, `i32` error
codes) are modelled as `Int`; no arithmetic is performed on them, so no
overflow reduction arises.  Bytes are modelled as `Char`s; every concrete
stream in the claims is ASCII, where byte count and character count agree.
-/

namespace Lspower

/-! Modelled from the spec: JSON values (the `serde_json::Value` collaborator,
out of scope of `src/`).  Numbers are modelled as integers; no claim involves
a non-integral JSON number.  Arrays and objects carry their elements through
the mutually defined `JsonList` and `JsonFields` (lists in all but name, kept
mutual so recursion over values is structural).
-/

mutual
inductive Json where
  | null : Json
  | bool (b : Bool) : Json
  | num (n : Int) : Json
  | str (s : String) : Json
  | arr (items : JsonList) : Json
  | obj (fields : JsonFields) : Json
inductive JsonList where
  | nil : JsonList
  | cons (hd : Json) (tl : JsonList) : JsonList
inductive JsonFields where
  | nil : JsonFields
  | cons (key : String) (value : Json) (tl : JsonFields) : JsonFields
end

/-- Modelled from the spec: the request correlator `Id` from `jsonrpc.rs`
(missing from `src/`): a 64-bit integer, a string, or null. -/
inductive Id where
  | num (n : Int) : Id
  | str (s : String) : Id
  | null : Id
deriving DecidableEq

/-- Modelled from the spec: the JSON-RPC `Error` from `jsonrpc.rs` (missing
from `src/`): `{ code : i32, message : string, data? : value }`. -/
structure Error where
  code : Int
  message : String
  data : Option Json

/-- Modelled from the spec: `Error::parse_error()` (−32700); the message is
fixed by scenario S2's expected output. -/
def Error.parse_error : Error := ⟨-32700, ("Parse error"), none⟩

/-- Modelled from the spec: `Error::invalid_request()` (−32600). -/
def Error.invalid_request : Error := ⟨-32600, ("Invalid request"), none⟩

/-- Modelled from the spec: `Error::invalid_params(reason)` (−32602),
carrying the `Params::Invalid` reason. -/
def Error.invalid_params (m : String) : Error := ⟨-32602, m, none⟩

/-- Modelled from the spec: `not_initialized_error()` (−32002), the
server-not-initialized error from `jsonrpc.rs`. -/
def not_initialized_error : Error := ⟨-32002, ("Server not initialized"), none⟩

/-- Modelled from the spec: a JSON-RPC `Response` from `jsonrpc.rs`: exactly
one of `result` / `error` is present.  The constructors mirror the two call
shapes used by the generated router, `Response::ok(id, result)` and
`Response::error(Option<Id>, Error)`. -/
inductive Response where
  | ok (id : Id) (result : Json) : Response
  | error (id : Option Id) (e : Error) : Response

/-- Modelled from the spec: `Outgoing` is a tagged union over
{Response, Request}; the dispatcher only ever constructs the `Response`
side, the `Request` side is the server-initiated pass-through. -/
inductive Outgoing where
  | response (r : Response) : Outgoing
  | request (body : Json) : Outgoing

/-- Modelled from the spec: `StateKind` from `server.rs` (missing from
`src/`): the five-valued lifecycle state, as matched on by the generated
dispatcher. -/
inductive StateKind where
  | Uninitialized : StateKind
  | Initializing : StateKind
  | Initialized : StateKind
  | ShutDown : StateKind
  | Exited : StateKind
deriving DecidableEq

/-- The `Params<T>` two-state wrapper generated by the macro
(`lspower-macros/src/lib.rs`, lines 274-280). -/
inductive Params (T : Type) where
  | valid (t : T) : Params T
  | invalid (reason : String) : Params T

/-- The generated `ServerMethod` sum type (`lspower-macros/src/lib.rs`,
lines 104-121 and 254-263).  The macro emits one variant per trait method,
of one of four shapes according to `(result.is_some(), params.is_some())`;
here each shape is one constructor carrying the method's rpc name, with the
two specially-routed methods (`"initialize"`, `"shutdown"`) as their own
constructors, plus the two fixed variants `CancelRequest` and `Exit`.
Parameter payloads after deserialization are modelled as `Json`. -/
inductive ServerMethod where
  | init (params : Params Json) (id : Id) : ServerMethod
  | shutdown (id : Id) : ServerMethod
  | requestParams (name : String) (params : Params Json) (id : Id) : ServerMethod
  | requestUnit (name : String) (id : Id) : ServerMethod
  | notifyParams (name : String) (params : Params Json) : ServerMethod
  | notifyUnit (name : String) : ServerMethod
  | cancelRequest (id : Id) : ServerMethod
  | exit : ServerMethod

/-- The generated `ServerMethod::id()` accessor (`lspower-macros/src/lib.rs`,
lines 123-131 and 265-272): `Some(id)` exactly for the variants generated
from methods with a result (request variants); the fixed variants and the
notification variants fall to the `_ => None` arm. -/
def ServerMethod.id : ServerMethod → Option Id
  | .init _ i => some i
  | .shutdown i => some i
  | .requestParams _ _ i => some i
  | .requestUnit _ i => some i
  | _ => none

/-- Whether the variant is the generated `initialize` request variant. -/
def ServerMethod.isInit : ServerMethod → Bool
  | .init _ _ => true
  | _ => false

/-- The generated `RequestKind` (`lspower-macros/src/lib.rs`,
lines 246-252): a known `ServerMethod` or the untagged `Other` fallback
preserving `id`, `method` and raw `params`. -/
inductive RequestKind where
  | known (m : ServerMethod) : RequestKind
  | other (id : Option Id) (method : String) (params : Option Json) : RequestKind

/-- The generated top-level `ServerRequest` (`lspower-macros/src/lib.rs`,
lines 237-244); the constant `jsonrpc: Version` field carries no
information and is omitted. -/
structure ServerRequest where
  kind : RequestKind

/-- The user-supplied handler set: the `LanguageServer` impl the generated
`handle_request` dispatches into.  Handlers are external inputs of the
model; `init` is the `initialize` handler, `request` covers every other
generated request handler (keyed by rpc name, `none` params for the
no-parameter shape) and `request_else` is the unknown-method catch-all.
Handler results are `jsonrpc::Result` values: `Ok` carries the
`serde_json::to_value`-converted result. -/
structure ServerImpl where
  init : Json → Except Error Json
  shutdown : Unit → Except Error Json
  request : String → Option Json → Except Error Json
  request_else : String → Option Json → Except Error Json

/-- Modelled from the spec: `ServerRequests::execute(id, fut)` from
`jsonrpc.rs` (missing from `src/`): registers `id`, runs the handler and
yields a `Response` correlated with `id` — the handler's `Ok` value as an
ok response, its `Err` as an error response (spec section 4.4 and
section 7: handler errors are surfaced as error responses whose id matches
the request). -/
def ServerRequests.execute (id : Id) (r : Except Error Json) : Response :=
  match r with
  | .ok v => Response.ok id v
  | .error e => Response.error (some id) e

/-- The observable outcome of one `handle_request` dispatch: `syncState` is
the lifecycle state after the synchronous part of `handle_request` (before
the returned future is first awaited), `state` the state after that future
completes, `output` the optional outgoing message the future resolves to,
`cancelled` the ids passed to `pending.cancel`, `cancelledAll` whether
`pending.cancel_all` was called, `registered` the ids registered through
`pending.execute`, and `logs` the emitted log lines. -/
structure Outcome where
  syncState : StateKind
  state : StateKind
  output : Option Outgoing
  cancelled : List Id
  cancelledAll : Bool
  registered : List Id
  logs : List String

/-- An outcome with no effects: state untouched, no output, no registry
activity, no logs. -/
def Outcome.base (st : StateKind) : Outcome :=
  ⟨st, st, none, [], false, [], []⟩

/-- Method-name character pair tested by `method.starts_with("$/")`. -/
def dollarSlash : String := "$/"

/-- String prefix test, `method.starts_with(pre)`, computed over the
character data. -/
def starts_with (s pre : String) : Bool := pre.data.isPrefixOf s.data

/-- The generated `handle_request` (`lspower-macros/src/lib.rs`,
lines 295-345, with the per-method route arms from lines 133-219).  Match
arms appear in the order the macro emits them: the `RequestKind::Other`
arms first, then the generated per-method arms (`initialize` special-cased
on `Uninitialized`/`Initializing`, `shutdown` on `Initialized`, the four
generic shapes on `Initialized`), then `CancelRequest` on `Initialized`,
`Exit` in any state, the `Uninitialized` catch-all and the final
catch-all. -/
def handle_request (srv : ServerImpl) (st : StateKind) (request : ServerRequest) : Outcome :=
  match request.kind with
  | .other (some id) method params =>
      { Outcome.base st with
        output := some (.response (ServerRequests.execute id (srv.request_else method params))),
        registered := [id] }
  | .other none method _ =>
      if !(starts_with method dollarSlash) then
        { Outcome.base st with logs := ["method \"" ++ method ++ "\" not found"] }
      else
        Outcome.base st
  | .known m =>
    match m, st with
    | .init (.valid p) id, .Uninitialized =>
        match srv.init p with
        | .ok result =>
            { syncState := .Initializing, state := .Initialized,
              output := some (.response (Response.ok id result)),
              cancelled := [], cancelledAll := false, registered := [],
              logs := ["language server initialized"] }
        | .error e =>
            { syncState := .Initializing, state := .Uninitialized,
              output := some (.response (Response.error (some id) e)),
              cancelled := [], cancelledAll := false, registered := [],
              logs := [] }
    | .init (.invalid e) id, .Uninitialized =>
        { Outcome.base .Uninitialized with
          output := some (.response (Response.error (some id) (Error.invalid_params e))),
          logs := ["invalid parameters for \"initialize\" request"] }
    | .init _ id, .Initializing =>
        { Outcome.base .Initializing with
          output := some (.response (Response.error (some id) Error.invalid_request)),
          logs := ["received duplicate `initialize` request, ignoring"] }
    | .shutdown id, .Initialized =>
        { syncState := .ShutDown, state := .ShutDown,
          output := some (.response (ServerRequests.execute id (srv.shutdown ()))),
          cancelled := [], cancelledAll := false, registered := [id],
          logs := ["shutdown request received, shutting down"] }
    | .requestParams name (.valid p) id, .Initialized =>
        { Outcome.base .Initialized with
          output := some (.response (ServerRequests.execute id (srv.request name (some p)))),
          registered := [id] }
    | .requestParams name (.invalid e) id, .Initialized =>
        { Outcome.base .Initialized with
          output := some (.response (Response.error (some id) (Error.invalid_params e))),
          logs := ["invalid parameters for \"" ++ name ++ "\" request"] }
    | .requestUnit name id, .Initialized =>
        { Outcome.base .Initialized with
          output := some (.response (ServerRequests.execute id (srv.request name none))),
          registered := [id] }
    | .notifyParams _ (.valid _), .Initialized =>
        Outcome.base .Initialized
    | .notifyParams name (.invalid _), .Initialized =>
        { Outcome.base .Initialized with
          logs := ["invalid parameters for \"" ++ name ++ "\" notification"] }
    | .notifyUnit _, .Initialized =>
        Outcome.base .Initialized
    | .cancelRequest id, .Initialized =>
        { Outcome.base .Initialized with cancelled := [id] }
    | .exit, _ =>
        { syncState := .Exited, state := .Exited, output := none,
          cancelled := [], cancelledAll := true, registered := [],
          logs := ["exit notification received, stopping"] }
    | other, .Uninitialized =>
        match other.id with
        | none => Outcome.base .Uninitialized
        | some id =>
            { Outcome.base .Uninitialized with
              output := some (.response (Response.error (some id) not_initialized_error)) }
    | other, s =>
        match other.id with
        | none => Outcome.base s
        | some id =>
            { Outcome.base s with
              output := some (.response (Response.error (some id) Error.invalid_request)) }

/-- The `Params<T>` deserializer body (`lspower-macros/src/lib.rs`,
lines 282-293): the result of deserializing `Option<T>` from the
deserializer is mapped with `Ok(Some(v))` to `Ok(Valid(v))`, `Ok(None)` to
`Ok(Invalid("Missing params field"))` and `Err(e)` to
`Ok(Invalid(e.to_string()))`. -/
def Params.deserialize {T : Type} (inner : Except String (Option T)) :
    Except String (Params T) :=
  match inner with
  | .ok (some v) => .ok (.valid v)
  | .ok none => .ok (.invalid ("Missing params field"))
  | .error e => .ok (.invalid e)

/-- Modelled from the spec: serde's `Option<T>` deserialization over a JSON
field (the external serde collaborator): an absent field (`none`) or a JSON
`null` deserializes to `Ok(None)`, any other value runs the element decoder
and wraps success in `Some`. -/
def deserialize_option {T : Type} (dec : Json → Except String T) :
    Option Json → Except String (Option T)
  | none => .ok none
  | some .null => .ok none
  | some j => (dec j).map some

/-- Deserialization of a `Params<T>` field from a raw (possibly absent)
JSON value: the `Params::deserialize` impl applied to serde's `Option<T>`
deserialization of that field. -/
def Params.deserializeField {T : Type} (dec : Json → Except String T)
    (field : Option Json) : Except String (Params T) :=
  Params.deserialize (deserialize_option dec field)

/-- One decoded inbound frame as the transport reader sees it
(`src/transport.rs`, lines 119-129): either a successfully decoded message
or a decode failure (the `Err` arm of `framed_stdin.next()`). -/
inductive Frame (μ : Type) where
  | msg (m : μ) : Frame μ
  | decodeError : Frame μ

/-- The transport loop of `Server::serve` (`src/transport.rs`,
lines 100-146) over already-decoded frames, for an arbitrary service with
state `σ` and message type `μ`.  A decode error enqueues a ready
`parse_error` response with null id and continues; a decoded message first
awaits `service.poll_ready` — an error there terminates the reader — then
calls the service and enqueues its response future.  The `buffered(4)`
queue yields responses in enqueue order and `filter_map` drops `None`
results, so the written outputs are the in-order concatenation below. -/
def serve_frames {σ μ : Type} (ready : σ → Bool)
    (call : σ → μ → σ × Option Outgoing) (s : σ) :
    List (Frame μ) → List Outgoing
  | [] => []
  | .decodeError :: rest =>
      Outgoing.response (Response.error none Error.parse_error) ::
        serve_frames ready call s rest
  | .msg m :: rest =>
      if ready s then
        let r := call s m
        r.2.toList ++ serve_frames ready call r.1 rest
      else []

/-- Modelled from the spec: the service wrapper from `service.rs` (missing
from `src/`), `poll_ready` side: a `poll_ready` error (`ExitedError`) is
returned exactly when the lifecycle state is `Exited` (spec sections 7
and 8: service-level `poll_ready` errors terminate the reader; an `exit`
notification causes the engine to terminate with no further outgoing
messages from handlers). -/
def LspService.poll_ready (st : StateKind) : Bool :=
  match st with
  | .Exited => false
  | _ => true

/-- Modelled from the spec: the service wrapper from `service.rs` (missing
from `src/`), `call` side: dispatches through the generated
`handle_request` under the shared lifecycle cell, observable as the final
state and the optional outgoing message. -/
def LspService.call (srv : ServerImpl) (st : StateKind) (request : ServerRequest) :
    StateKind × Option Outgoing :=
  let o := handle_request srv st request
  (o.state, o.output)

/-- The transport loop driving the lifecycle-aware service: `Server::serve`
composed with the spec-modelled `LspService`. -/
def lspServe (srv : ServerImpl) (st : StateKind) (frames : List (Frame ServerRequest)) :
    List Outgoing :=
  serve_frames LspService.poll_ready (LspService.call srv) st frames

/-- A byte stream, with bytes modelled as ASCII characters. -/
abbrev Bytes := List Char

/-- Escape a character for a JSON string literal; the only characters
needing escaping that occur in any value of this development are the quote
and the backslash. -/
def escapeChar (c : Char) : String :=
  if c = '"' then "\\\"" else if c = '\\' then "\\\\" else String.singleton c

/-- Escape a string for inclusion in a JSON string literal. -/
def escapeStr (s : String) : String :=
  String.join (s.data.map escapeChar)

/-! Modelled from the spec: `serde_json` serialization of a JSON value —
compact, no injected whitespace, keys in order.  `JsonList.renderItems`
and `JsonFields.renderItems` produce the comma-joined element texts. -/

mutual
def Json.render : Json → String
  | .null => "null"
  | .bool true => "true"
  | .bool false => "false"
  | .num n => toString n
  | .str s => "\"" ++ escapeStr s ++ "\""
  | .arr items => "[" ++ String.intercalate (",") (JsonList.renderItems items) ++ "]"
  | .obj fields =>
      "\x7b" ++ String.intercalate (",") (JsonFields.renderItems fields) ++ "\x7d"
def JsonList.renderItems : JsonList → List String
  | .nil => []
  | .cons j tl => Json.render j :: JsonList.renderItems tl
def JsonFields.renderItems : JsonFields → List String
  | .nil => []
  | .cons k v tl =>
      ("\"" ++ escapeStr k ++ "\":" ++ Json.render v) :: JsonFields.renderItems tl
end

/-- Modelled from the spec: serialization of an `Id`. -/
def Id.render : Id → String
  | .num n => toString n
  | .str s => "\"" ++ escapeStr s ++ "\""
  | .null => "null"

/-- Modelled from the spec: serialization of an optional response id;
`Response::error(None, …)` serializes its id as `null` (scenario S2). -/
def renderOptId : Option Id → String
  | none => "null"
  | some i => i.render

/-- Modelled from the spec: serialization of an `Error`
(`{ code, message, data? }`, `data` omitted when absent). -/
def Error.render (e : Error) : String :=
  "\x7b\"code\":" ++ toString e.code ++ ",\"message\":\"" ++ escapeStr e.message ++ "\"" ++
    (match e.data with
      | none => ""
      | some d => ",\"data\":" ++ d.render) ++ "\x7d"

/-- Modelled from the spec: serialization of a `Response`: `jsonrpc` first,
then exactly one of `result` / `error`, then `id` (scenarios S1 and S2 fix
the layout). -/
def Response.render : Response → String
  | .ok id v =>
      "\x7b\"jsonrpc\":\"2.0\",\"result\":" ++ v.render ++ ",\"id\":" ++ id.render ++ "\x7d"
  | .error oid e =>
      "\x7b\"jsonrpc\":\"2.0\",\"error\":" ++ e.render ++ ",\"id\":" ++ renderOptId oid ++ "\x7d"

/-- Modelled from the spec: serialization of an `Outgoing` message. -/
def Outgoing.render : Outgoing → String
  | .response r => r.render
  | .request body => body.render

/-- Modelled from the spec: the frame encoder of the codec (`codec.rs`,
missing from `src/`): `Content-Length: <n>\r\n\r\n<payload>` with `n` the
byte length of the serialized payload. -/
def encodeFrame (body : String) : Bytes :=
  ("Content-Length: " ++ toString body.data.length ++ "\r\n\r\n" ++ body).data

/-- The four-byte header terminator `\r\n\r\n`. -/
def headerSep : Bytes := ['\r', '\n', '\r', '\n']

/-- Split a byte stream at the first occurrence of `\r\n\r\n`, returning
the bytes before it and the bytes after it. -/
def splitHeaderAux : Bytes → Bytes → Option (Bytes × Bytes)
  | _, [] => none
  | acc, c :: rest =>
      if headerSep.isPrefixOf (c :: rest) then
        some (acc.reverse, (c :: rest).drop 4)
      else
        splitHeaderAux (c :: acc) rest

/-- Parse a non-empty all-digit byte sequence as a decimal number. -/
def parseNatDigits (l : Bytes) : Option Nat :=
  if l ≠ [] ∧ l.all Char.isDigit then
    some (l.foldl (fun n c => n * 10 + (c.toNat - ('0').toNat)) 0)
  else
    none

/-- The literal `Content-Length: ` header prefix. -/
def contentLengthTag : Bytes := ("Content-Length: ").data

/-- Modelled from the spec: parsing the header block of a frame — a
`Content-Length` header with a non-negative integer value; a malformed or
absent header is rejected. -/
def parseHeader (h : Bytes) : Option Nat :=
  if contentLengthTag.isPrefixOf h then
    parseNatDigits (h.drop contentLengthTag.length)
  else
    none

/-- Modelled from the spec: the frame decoder of the codec (`codec.rs`,
missing from `src/`): read until `\r\n\r\n`, parse `Content-Length`, wait
for that many bytes; yields the body, the total number of bytes consumed,
and the remaining stream.  `none` means no complete frame is available
(the stream ends). -/
def decodeFrame (input : Bytes) : Option (Bytes × Nat × Bytes) :=
  match splitHeaderAux [] input with
  | none => none
  | some (header, after) =>
      match parseHeader header with
      | none => none
      | some n =>
          if n ≤ after.length then
            some (after.take n, header.length + 4 + n, after.drop n)
          else
            none

/-- The byte-level transport loop of `Server::serve` (`src/transport.rs`,
lines 100-146): frames are decoded from the input stream; a body that the
(external, `parse`-modelled) JSON parse rejects produces an encoded
`parse_error` response frame with null id and reading continues; a parsed
message goes through `poll_ready` (an error terminates the reader with the
frame already consumed) and the service call, whose optional outgoing
message is encoded and written.  Returns the written bytes and the number
of input bytes consumed.  The fuel argument bounds the iteration count;
each decoded frame strictly shrinks the stream, so any fuel of at least
the input length is enough. -/
def serveBytesAux {σ μ : Type} (parse : Bytes → Option μ) (ready : σ → Bool)
    (call : σ → μ → σ × Option Outgoing) : Nat → σ → Bytes → Bytes × Nat
  | 0, _, _ => ([], 0)
  | fuel + 1, s, input =>
      match decodeFrame input with
      | none => ([], 0)
      | some (body, k, rest) =>
          match parse body with
          | none =>
              let out := encodeFrame (Response.error none Error.parse_error).render
              let tail := serveBytesAux parse ready call fuel s rest
              (out ++ tail.1, k + tail.2)
          | some m =>
              if ready s then
                let r := call s m
                let out := match r.2 with
                  | none => ([] : Bytes)
                  | some o => encodeFrame o.render
                let tail := serveBytesAux parse ready call fuel r.1 rest
                (out ++ tail.1, k + tail.2)
              else ([], k)

/-- `Server::serve` at the byte level, with fuel set from the input
length. -/
def Server.serve {σ μ : Type} (parse : Bytes → Option μ) (ready : σ → Bool)
    (call : σ → μ → σ × Option Outgoing) (s : σ) (input : Bytes) : Bytes × Nat :=
  serveBytesAux parse ready call (input.length + 1) s input

/-- Scenario S1's request body (the `REQUEST` constant of the transport
tests, `src/transport.rs` line 186): 58 bytes. -/
def S1_REQUEST : String :=
  "\x7b\"jsonrpc\":\"2.0\",\"method\":\"initialize\",\"params\":\x7b\x7d,\"id\":1\x7d"

/-- Scenario S1's input stream: one `Content-Length`-framed copy of
`S1_REQUEST` (the `mock_request` helper, `src/transport.rs` line 207). -/
def S1_INPUT : String := "Content-Length: 58\r\n\r\n" ++ S1_REQUEST

/-- The serialized mock response body (the `RESPONSE` constant of the
transport tests, `src/transport.rs` line 187). -/
def S1_RESPONSE : String :=
  "\x7b\"jsonrpc\":\"2.0\",\"result\":\x7b\"capabilities\":\x7b\x7d\x7d,\"id\":1\x7d"

/-- The response value the transport tests' `MockService` yields
(`src/transport.rs`, lines 201-204): `serde_json::from_str(RESPONSE)`,
an ok response with id 1 and result `{"capabilities":{}}`. -/
def mockResponseValue : Response :=
  Response.ok (.num 1) (.obj (.cons ("capabilities") (.obj .nil) .nil))

/-- The `MockService` of the transport tests (`src/transport.rs`,
lines 189-205), `call` side: stateless, returns the fixed response
regardless of the incoming message. -/
def MockService.call : Unit → Unit → Unit × Option Outgoing :=
  fun _ _ => ((), some (.response mockResponseValue))

/-- The `MockService` of the transport tests, `poll_ready` side: always
ready. -/
def MockService.poll_ready : Unit → Bool := fun _ => true

/-- Modelled from the spec: the external JSON parse applied to each frame
body.  `MockService` ignores the decoded message, so the message type is
`Unit`; this parse accepts every body, which is faithful for S1's input,
whose single body is valid JSON. -/
def parseAlwaysOk : Bytes → Option Unit := fun _ => some ()

/-- A concrete handler set used by the witness theorems. -/
def srv0 : ServerImpl where
  init := fun _ => .ok (Json.obj .nil)
  shutdown := fun _ => .ok .null
  request := fun _ _ => .ok .null
  request_else := fun _ _ => .ok .null

/-- A concrete parameter decoder used by the witness theorems. -/
def dec0 : Json → Except String Nat := fun _ => .ok 0

/-- Once the lifecycle state is `Exited`, the transport loop driven by the
lifecycle-aware service emits nothing for a run of successfully decoded
frames: the first such frame hits the failing `poll_ready` and the reader
terminates. -/
theorem serve_frames_exited {μ : Type} (call : StateKind → μ → StateKind × Option Outgoing)
    (frames : List (Frame μ)) (h : ∀ f ∈ frames, ∃ m, f = Frame.msg m) :
    serve_frames LspService.poll_ready call .Exited frames = [] := by
  cases frames with
  | nil => rfl
  | cons f rest =>
      obtain ⟨m, rfl⟩ := h f (by simp)
      simp [serve_frames, LspService.poll_ready]

/-- Claim C1: an `initialize` request with valid params and an id,
dispatched in `Uninitialized`, sets the state to `Initializing` before the
handler is awaited; a handler `Ok` sets the state to `Initialized` and
produces an ok response with the request's id, a handler `Err` sets the
state back to `Uninitialized` and produces an error response with that
id. -/
theorem claim_C1 (srv : ServerImpl) (p : Json) (id : Id) :
    (handle_request srv .Uninitialized ⟨.known (.init (.valid p) id)⟩).syncState =
      .Initializing ∧
    (∀ r, srv.init p = .ok r →
      (handle_request srv .Uninitialized ⟨.known (.init (.valid p) id)⟩).state =
        .Initialized ∧
      (handle_request srv .Uninitialized ⟨.known (.init (.valid p) id)⟩).output =
        some (.response (Response.ok id r))) ∧
    (∀ e, srv.init p = .error e →
      (handle_request srv .Uninitialized ⟨.known (.init (.valid p) id)⟩).state =
        .Uninitialized ∧
      (handle_request srv .Uninitialized ⟨.known (.init (.valid p) id)⟩).output =
        some (.response (Response.error (some id) e))) := by
  refine ⟨?_, ?_, ?_⟩
  · cases h : srv.init p <;> simp [handle_request, h]
  · intro r hr
    constructor <;> simp [handle_request, hr]
  · intro e he
    constructor <;> simp [handle_request, he]

/-- Witness for C1 at a concrete handler set, params and id. -/
theorem claim_C1_witness :
    (handle_request srv0 .Uninitialized ⟨.known (.init (.valid .null) (.num 1))⟩).syncState =
      .Initializing ∧
    (handle_request srv0 .Uninitialized ⟨.known (.init (.valid .null) (.num 1))⟩).state =
      .Initialized ∧
    (handle_request srv0 .Uninitialized ⟨.known (.init (.valid .null) (.num 1))⟩).output =
      some (.response (Response.ok (.num 1) (Json.obj .nil))) := by
  refine ⟨(claim_C1 srv0 .null (.num 1)).1, ?_, ?_⟩
  · exact ((claim_C1 srv0 .null (.num 1)).2.1 (Json.obj .nil) rfl).1
  · exact ((claim_C1 srv0 .null (.num 1)).2.1 (Json.obj .nil) rfl).2

/-- Claim C2 (counterexample): after an `exit` notification, a subsequent
malformed frame is not ignored — the transport answers it with the
parse-error response without consulting the service, so the outgoing list
after `exit` is not empty. -/
theorem claim_C2_cex :
    ¬ (lspServe srv0 .Initialized [Frame.msg ⟨.known .exit⟩, Frame.decodeError] = []) := by
  intro heq
  exact absurd (congrArg List.length heq) (by decide)

/-- Claim C2 (amended): an `exit` notification dispatched in any lifecycle
state sets the state to `Exited`, calls `pending.cancel_all()`, and
produces no response; subsequent successfully decoded frames produce no
outgoing messages (a malformed subsequent frame still elicits the
parse-error response). -/
theorem claim_C2 (srv : ServerImpl) (st : StateKind) (frames : List (Frame ServerRequest))
    (h : ∀ f ∈ frames, ∃ m, f = Frame.msg m) :
    (handle_request srv st ⟨.known .exit⟩).state = .Exited ∧
    (handle_request srv st ⟨.known .exit⟩).cancelledAll = true ∧
    (handle_request srv st ⟨.known .exit⟩).output = none ∧
    lspServe srv st (Frame.msg ⟨.known .exit⟩ :: frames) = [] := by
  have h1 : handle_request srv st ⟨.known .exit⟩ =
      ⟨.Exited, .Exited, none, [], true, [], ["exit notification received, stopping"]⟩ := by
    cases st <;> rfl
  have hall : ∀ f ∈ (Frame.msg (⟨.known .exit⟩ : ServerRequest) :: frames),
      ∃ m, f = Frame.msg m := by
    intro f hf
    rcases List.mem_cons.mp hf with h2 | h2
    · exact ⟨_, h2⟩
    · exact h f h2
  refine ⟨by rw [h1], by rw [h1], by rw [h1], ?_⟩
  cases st
  case Exited => exact serve_frames_exited _ _ hall
  all_goals
    simp only [lspServe, serve_frames, LspService.poll_ready, LspService.call, h1,
      if_true, Option.toList, List.nil_append]
    exact serve_frames_exited _ _ h

/-- Witness for C2 at a concrete state and frame list. -/
theorem claim_C2_witness :
    (handle_request srv0 .Initialized ⟨.known .exit⟩).state = .Exited ∧
    (handle_request srv0 .Initialized ⟨.known .exit⟩).cancelledAll = true ∧
    (handle_request srv0 .Initialized ⟨.known .exit⟩).output = none ∧
    lspServe srv0 .Initialized
      [Frame.msg ⟨.known .exit⟩, Frame.msg ⟨.known (.notifyUnit ("initialized"))⟩] = [] := by
  exact claim_C2 srv0 .Initialized [Frame.msg ⟨.known (.notifyUnit ("initialized"))⟩]
    (by intro f hf; simp at hf; exact ⟨_, hf⟩)

/-- Claim C3: a frame whose body fails to decode makes the transport loop
enqueue exactly one response with null id and error −32700, message
"Parse error", and reading continues: the remaining frames are processed
exactly as they would have been. -/
theorem claim_C3 {σ μ : Type} (ready : σ → Bool) (call : σ → μ → σ × Option Outgoing)
    (s : σ) (rest : List (Frame μ)) :
    serve_frames ready call s (Frame.decodeError :: rest) =
      Outgoing.response (Response.error none ⟨-32700, ("Parse error"), none⟩) ::
        serve_frames ready call s rest := rfl

/-- Claim C4: a request variant other than `initialize` (one for which the
generated `id()` accessor yields an id), dispatched in `Uninitialized`,
produces exactly one error response with code −32002 carrying that id; a
notification variant (no id) dispatched in a non-`Initialized` state
produces no output. -/
theorem claim_C4 (srv : ServerImpl) :
    (∀ (m : ServerMethod) (id : Id), ServerMethod.id m = some id → m.isInit = false →
      (handle_request srv .Uninitialized ⟨.known m⟩).output =
        some (.response (Response.error (some id) not_initialized_error)) ∧
      not_initialized_error.code = -32002) ∧
    (∀ (m : ServerMethod) (st : StateKind), ServerMethod.id m = none → st ≠ .Initialized →
      (handle_request srv st ⟨.known m⟩).output = none) := by
  constructor
  · intro m id hid hinit
    refine ⟨?_, rfl⟩
    cases m with
    | init p i => simp [ServerMethod.isInit] at hinit
    | shutdown i =>
        simp only [ServerMethod.id, Option.some.injEq] at hid
        subst hid
        rfl
    | requestParams n ps i =>
        simp only [ServerMethod.id, Option.some.injEq] at hid
        subst hid
        cases ps <;> rfl
    | requestUnit n i =>
        simp only [ServerMethod.id, Option.some.injEq] at hid
        subst hid
        rfl
    | notifyParams n ps => simp [ServerMethod.id] at hid
    | notifyUnit n => simp [ServerMethod.id] at hid
    | cancelRequest i => simp [ServerMethod.id] at hid
    | exit => simp [ServerMethod.id] at hid
  · intro m st hid hst
    cases m with
    | init p i => simp [ServerMethod.id] at hid
    | shutdown i => simp [ServerMethod.id] at hid
    | requestParams n ps i => simp [ServerMethod.id] at hid
    | requestUnit n i => simp [ServerMethod.id] at hid
    | notifyParams n ps =>
        cases st <;> first | (exact absurd rfl hst) | (cases ps <;> rfl)
    | notifyUnit n =>
        cases st <;> first | (exact absurd rfl hst) | rfl
    | cancelRequest i =>
        cases st <;> first | (exact absurd rfl hst) | rfl
    | exit =>
        cases st <;> rfl

/-- Witness for C4 at a concrete request and notification. -/
theorem claim_C4_witness :
    (handle_request srv0 .Uninitialized
        ⟨.known (.requestUnit ("textDocument/hover") (.num 7))⟩).output =
      some (.response (Response.error (some (.num 7)) not_initialized_error)) ∧
    (handle_request srv0 .Uninitialized ⟨.known (.notifyUnit ("initialized"))⟩).output =
      none := by
  exact ⟨((claim_C4 srv0).1 (.requestUnit ("textDocument/hover") (.num 7)) (.num 7) rfl rfl).1,
    (claim_C4 srv0).2 (.notifyUnit ("initialized")) .Uninitialized rfl (by decide)⟩

/-- Claim C5: an `initialize` request with any params and an id, dispatched
in `Initializing`, produces an `invalid_request` error response carrying
that id, logs the duplicate-initialize warning, and changes nothing else:
the full dispatch outcome equals the effect-free outcome at `Initializing`
with only that response and that log line. -/
theorem claim_C5 (srv : ServerImpl) (ps : Params Json) (id : Id) :
    handle_request srv .Initializing ⟨.known (.init ps id)⟩ =
      { Outcome.base .Initializing with
        output := some (.response (Response.error (some id) Error.invalid_request)),
        logs := ["received duplicate `initialize` request, ignoring"] } := by
  cases ps <;> rfl

/-- Claim C6: dispatching `$/cancelRequest` yields no output in every
lifecycle state, calls `pending.cancel(id)` exactly in `Initialized`, and
leaves the state unchanged. -/
theorem claim_C6 (srv : ServerImpl) (st : StateKind) (id : Id) :
    (handle_request srv st ⟨.known (.cancelRequest id)⟩).output = none ∧
    (handle_request srv st ⟨.known (.cancelRequest id)⟩).cancelled =
      (if st = .Initialized then [id] else []) ∧
    (handle_request srv st ⟨.known (.cancelRequest id)⟩).state = st := by
  cases st <;> exact ⟨rfl, rfl, rfl⟩

/-- Claim C7: an inbound message whose method is unknown
(`RequestKind::Other`) is, in any lifecycle state, executed through the
pending registry via `request_else(method, params)` when it carries an id,
with the result returned as a response; with no id it yields no response —
silently when the method starts with `$/`, with a method-not-found log
line otherwise. -/
theorem claim_C7 (srv : ServerImpl) :
    (∀ (st : StateKind) (id : Id) (method : String) (params : Option Json),
      handle_request srv st ⟨.other (some id) method params⟩ =
        { Outcome.base st with
          output :=
            some (.response (ServerRequests.execute id (srv.request_else method params))),
          registered := [id] }) ∧
    (∀ (st : StateKind) (method : String) (params : Option Json),
      starts_with method dollarSlash = true →
        handle_request srv st ⟨.other none method params⟩ = Outcome.base st) ∧
    (∀ (st : StateKind) (method : String) (params : Option Json),
      starts_with method dollarSlash = false →
        handle_request srv st ⟨.other none method params⟩ =
          { Outcome.base st with
            logs := ["method \"" ++ method ++ "\" not found"] }) := by
  refine ⟨fun st id method params => rfl, ?_, ?_⟩
  · intro st method params h
    simp [handle_request, h]
  · intro st method params h
    simp [handle_request, h]

/-- Witness for C7 at concrete methods in each of the three shapes. -/
theorem claim_C7_witness :
    handle_request srv0 .Initialized ⟨.other (some (.num 9)) ("custom/method") none⟩ =
      { Outcome.base .Initialized with
        output :=
          some (.response (ServerRequests.execute (.num 9)
            (srv0.request_else ("custom/method") none))),
        registered := [.num 9] } ∧
    handle_request srv0 .Uninitialized ⟨.other none ("$/unknown") none⟩ =
      Outcome.base .Uninitialized ∧
    handle_request srv0 .Uninitialized ⟨.other none ("workspace/custom") none⟩ =
      { Outcome.base .Uninitialized with
        logs := ["method \"workspace/custom\" not found"] } := by
  refine ⟨(claim_C7 srv0).1 .Initialized (.num 9) ("custom/method") none,
    (claim_C7 srv0).2.1 .Uninitialized ("$/unknown") none (by decide),
    (claim_C7 srv0).2.2 .Uninitialized ("workspace/custom") none (by decide)⟩

/-- Claim C9: deserialization of a `Params<T>` field is total — for every
field (absent, null, or any value under any decoder) the result is `Ok`,
with `Valid` on decoder success, `Invalid("Missing params field")` on an
absent or null field, and `Invalid` carrying the decoder's message on
decoder failure. -/
theorem claim_C9 {T : Type} (dec : Json → Except String T) (field : Option Json) :
    (∃ p, Params.deserializeField dec field = .ok p) ∧
    ((field = none ∨ field = some .null) →
      Params.deserializeField dec field = .ok (.invalid ("Missing params field"))) ∧
    (∀ j v, field = some j → j ≠ .null → dec j = .ok v →
      Params.deserializeField dec field = .ok (.valid v)) ∧
    (∀ j e, field = some j → j ≠ .null → dec j = .error e →
      Params.deserializeField dec field = .ok (.invalid e)) := by
  have key : ∀ j : Json, ∃ p, Params.deserialize ((dec j).map some) = Except.ok p := by
    intro j
    cases h : dec j with
    | ok v => exact ⟨.valid v, by simp [Params.deserialize, h, Except.map]⟩
    | error e => exact ⟨.invalid e, by simp [Params.deserialize, h, Except.map]⟩
  refine ⟨?_, ?_, ?_, ?_⟩
  · cases field with
    | none => exact ⟨.invalid ("Missing params field"), rfl⟩
    | some j =>
        cases j
        case null => exact ⟨.invalid ("Missing params field"), rfl⟩
        all_goals exact key _
  · intro h
    rcases h with h | h <;> subst h <;> rfl
  · intro j v hf hnull hdec
    subst hf
    cases j
    case null => exact absurd rfl hnull
    all_goals
      simp [Params.deserializeField, deserialize_option, Params.deserialize, hdec, Except.map]
  · intro j e hf hnull hdec
    subst hf
    cases j
    case null => exact absurd rfl hnull
    all_goals
      simp [Params.deserializeField, deserialize_option, Params.deserialize, hdec, Except.map]

/-- Witness for C9 at a concrete decoder, a present field and an absent
field. -/
theorem claim_C9_witness :
    Params.deserializeField dec0 (some (Json.num 5)) = .ok (.valid 0) ∧
    Params.deserializeField dec0 none = .ok (.invalid ("Missing params field")) := by
  exact ⟨(claim_C9 dec0 (some (Json.num 5))).2.2.1 (Json.num 5) 0 rfl
      (fun h => Json.noConfusion h) rfl,
    (claim_C9 dec0 none).2.1 (Or.inl rfl)⟩

/-- Claim C10: a request variant other than `initialize`, dispatched in
`Initializing`, is answered by the final catch-all with an
`invalid_request` error carrying the request's id — not with the
server-not-initialized error, whose code differs. -/
theorem claim_C10 (srv : ServerImpl) (m : ServerMethod) (id : Id)
    (h1 : ServerMethod.id m = some id) (h2 : m.isInit = false) :
    (handle_request srv .Initializing ⟨.known m⟩).output =
      some (.response (Response.error (some id) Error.invalid_request)) ∧
    Error.invalid_request.code ≠ not_initialized_error.code := by
  refine ⟨?_, by decide⟩
  cases m with
  | init p i => simp [ServerMethod.isInit] at h2
  | shutdown i =>
      simp only [ServerMethod.id, Option.some.injEq] at h1
      subst h1
      rfl
  | requestParams n ps i =>
      simp only [ServerMethod.id, Option.some.injEq] at h1
      subst h1
      cases ps <;> rfl
  | requestUnit n i =>
      simp only [ServerMethod.id, Option.some.injEq] at h1
      subst h1
      rfl
  | notifyParams n ps => simp [ServerMethod.id] at h1
  | notifyUnit n => simp [ServerMethod.id] at h1
  | cancelRequest i => simp [ServerMethod.id] at h1
  | exit => simp [ServerMethod.id] at h1

/-- Witness for C10 at a concrete non-initialize request. -/
theorem claim_C10_witness :
    (handle_request srv0 .Initializing ⟨.known (.shutdown (.num 3))⟩).output =
      some (.response (Response.error (some (.num 3)) Error.invalid_request)) := by
  exact (claim_C10 srv0 (.shutdown (.num 3)) (.num 3) rfl rfl).1

/-- Claim C8 (counterexample): on scenario S1's input, `serve` does not
write the frame the claim specifies — the claimed frame says
`Content-Length: 52`, while the response body is 53 bytes and the encoder
frames it with its actual byte length. -/
theorem claim_C8_cex :
    ¬ (Server.serve parseAlwaysOk MockService.poll_ready MockService.call () S1_INPUT.data =
        (("Content-Length: 52\r\n\r\n" ++ S1_RESPONSE).data, 80)) := by
  decide

/-- Claim C8 (amended): on scenario S1's single input frame, with the mock
service whose call yields the S1 response, `serve` writes exactly the
frame `Content-Length: 53` followed by the 53-byte response body, and the
input stream position advances by exactly 80 bytes. -/
theorem claim_C8 :
    Server.serve parseAlwaysOk MockService.poll_ready MockService.call () S1_INPUT.data =
      (("Content-Length: 53\r\n\r\n" ++ S1_RESPONSE).data, 80) ∧
    S1_RESPONSE.data.length = 53 ∧
    mockResponseValue.render = S1_RESPONSE := by
  refine ⟨by decide, by decide, by decide⟩

end Lspower
